import Mathlib

/-!
Shallow embedding of `IOMC/EventVertexGenerators/src/BetafuncEvtVtxGenerator.cc`
(CMSSW). The generator smears the event vertex with a beta-function profile in
the transverse plane and Gaussians along z and t, and builds the inverse of a
4x4 crossing-angle Lorentz boost matrix.

Doubles are modelled as real numbers, the CLHEP random engine as a stream of
standard-normal draws together with a cursor, and C++ exceptions as explicit
error values (`cms::Exception("Configuration")` / `cms::Exception("LogicError")`).
Mutating methods are modelled as state-passing functions returning the new
object state together with an optional raised exception.
-/

noncomputable section

/-- CLHEP length unit: `cm = 10` in CLHEP's millimeter-based system of units. -/
def cm : ℝ := 10

/-- CLHEP time unit: `ns = 1` (nanosecond is the base time unit). -/
def ns : ℝ := 1

/-- CLHEP angle unit: `radian = 1`. -/
def radian : ℝ := 1

/-- CLHEP `c_light` in mm/ns. -/
def c_light : ℝ := 299.792458

/-- The two `cms::Exception` categories thrown by this file:
`cms::Exception("Configuration")` and `cms::Exception("LogicError")`. -/
inductive CmsException where
  | configuration
  | logicError
deriving DecidableEq, Repr

/-- The data members of `BetafuncEvtVtxGenerator` that the embedded methods
read or write: `readDB_`, the beam-spot scalars, and the cached boost matrix. -/
structure BetafuncState where
  readDB_ : Bool
  fX0 : ℝ
  fY0 : ℝ
  fZ0 : ℝ
  fSigmaZ : ℝ
  fbetastar : ℝ
  femittance : ℝ
  fTimeOffset : ℝ
  boost_ : Matrix (Fin 4) (Fin 4) ℝ

/-- `BetafuncEvtVtxGenerator::BetaFunction(z, z0)`:
`sqrt(femittance * (fbetastar + (((z - z0) * (z - z0)) / fbetastar)))`. -/
def BetaFunction (st : BetafuncState) (z z0 : ℝ) : ℝ :=
  Real.sqrt (st.femittance * (st.fbetastar + ((z - z0) * (z - z0)) / st.fbetastar))

/-- The 4x4 matrix `tmpboost` assembled entry by entry in
`BetafuncEvtVtxGenerator::setBoost` before it is inverted
(row 0 first; entries exactly as the sixteen assignments in the source). -/
def boostM (alpha phi : ℝ) : Matrix (Fin 4) (Fin 4) ℝ :=
  Matrix.of
    ![![1 / Real.cos phi, -Real.cos alpha * Real.sin phi,
        -Real.tan phi * Real.sin phi, -Real.sin alpha * Real.sin phi],
      ![-Real.cos alpha * Real.tan phi, 1, Real.cos alpha * Real.tan phi, 0],
      ![0, -Real.cos alpha * Real.sin phi, Real.cos phi, -Real.sin alpha * Real.sin phi],
      ![-Real.sin alpha * Real.tan phi, 0, Real.sin alpha * Real.tan phi, 1]]

/-- `BetafuncEvtVtxGenerator::setBoost(alpha, phi)`: build `tmpboost`, invert
it, and store the inverse into `boost_`. -/
def setBoost (st : BetafuncState) (alpha phi : ℝ) : BetafuncState :=
  { st with boost_ := (boostM alpha phi)⁻¹ }

/-- The configuration parameters read from the `edm::ParameterSet` on the
static (`readDB = false`) path of the constructor. -/
structure StaticConfig where
  X0 : ℝ
  Y0 : ℝ
  Z0 : ℝ
  SigmaZ : ℝ
  BetaStar : ℝ
  Emittance : ℝ
  TimeOffset : ℝ
  Alpha : ℝ
  Phi : ℝ

/-- The static-configuration path of the constructor
`BetafuncEvtVtxGenerator::BetafuncEvtVtxGenerator` (`readDB = false`): scale
every parameter into CLHEP units, call `setBoost`, then throw
`cms::Exception("Configuration")` if `fSigmaZ <= 0`. -/
def configureStatic (p : StaticConfig) : Except CmsException BetafuncState :=
  let st : BetafuncState :=
    setBoost
      { readDB_ := false
        fX0 := p.X0 * cm
        fY0 := p.Y0 * cm
        fZ0 := p.Z0 * cm
        fSigmaZ := p.SigmaZ * cm
        fbetastar := p.BetaStar * cm
        femittance := p.Emittance * cm
        fTimeOffset := p.TimeOffset * ns * c_light
        boost_ := 1 }
      (p.Alpha * radian) (p.Phi * radian)
  if st.fSigmaZ ≤ 0 then Except.error CmsException.configuration else Except.ok st

/-- The fields of the conditions-database record `SimBeamSpotObjects` that
`BetafuncEvtVtxGenerator::update` reads. -/
structure SimBeamSpotObjects where
  isGaussian : Bool
  x : ℝ
  y : ℝ
  z : ℝ
  sigmaZ : ℝ
  timeOffset : ℝ
  betaStar : ℝ
  emittance : ℝ
  alpha : ℝ
  phi : ℝ

/-- `BetafuncEvtVtxGenerator::update(iEventSetup)`: when `readDB_` is set and
the parameter watcher reports a validity-interval transition (`check`), pull
the record; if it is not Gaussian, replace every beam-spot field (scaled into
CLHEP units) and rebuild the boost matrix, otherwise throw
`cms::Exception("Configuration")`.  Returns the post-call state and the raised
exception, if any (the throw happens before any member is written). -/
def update (st : BetafuncState) (check : Bool) (beam : SimBeamSpotObjects) :
    BetafuncState × Option CmsException :=
  if st.readDB_ && check then
    if !beam.isGaussian then
      (setBoost
        { st with
          fX0 := beam.x * cm
          fY0 := beam.y * cm
          fZ0 := beam.z * cm
          fSigmaZ := beam.sigmaZ * cm
          fTimeOffset := beam.timeOffset * ns * c_light
          fbetastar := beam.betaStar * cm
          femittance := beam.emittance * cm }
        (beam.alpha * radian) (beam.phi * radian), none)
    else (st, some CmsException.configuration)
  else (st, none)

/-- `BetafuncEvtVtxGenerator::sigmaZ(s)`: set `fSigmaZ := s` when `s >= 0`,
otherwise throw `cms::Exception("LogicError")` and leave the state untouched. -/
def sigmaZ (st : BetafuncState) (s : ℝ) : BetafuncState × Option CmsException :=
  if 0 ≤ s then ({ st with fSigmaZ := s }, none)
  else (st, some CmsException.logicError)

/-- The CLHEP random engine, modelled as a stream of standard-normal draws and
a cursor pointing at the next unconsumed draw. -/
structure HepRandomEngine where
  draws : ℕ → ℝ
  pos : ℕ

/-- `CLHEP::RandGaussQ::shoot(engine, mean, stdDev)`: consume one
standard-normal draw `u` and return `mean + stdDev * u`. -/
def shoot (engine : HepRandomEngine) (mean stdDev : ℝ) : ℝ × HepRandomEngine :=
  (mean + stdDev * engine.draws engine.pos, { engine with pos := engine.pos + 1 })

/-- The `ROOT::Math::XYZTVector(X, Y, Z, T)` returned by `vertexShift`. -/
structure XYZTVector where
  X : ℝ
  Y : ℝ
  Z : ℝ
  T : ℝ

/-- `BetafuncEvtVtxGenerator::vertexShift(engine)`: draw `Z` with sigma
`fSigmaZ` and shift by `fZ0`; compute the transverse width at `Z` with
`BetaFunction` and divide by `sqrt 2`, draw `X` with that sigma and shift by
`fX0`; recompute the width the same way and draw `Y`, shifted by `fY0`;
draw `T` with sigma `fSigmaZ` and shift by `fTimeOffset`. -/
def vertexShift (st : BetafuncState) (engine : HepRandomEngine) :
    XYZTVector × HepRandomEngine :=
  let r1 := shoot engine 0 st.fSigmaZ
  let Z := r1.1 + st.fZ0
  let tmp_sigx := BetaFunction st Z st.fZ0 / Real.sqrt 2
  let r2 := shoot r1.2 0 tmp_sigx
  let X := r2.1 + st.fX0
  let tmp_sigy := BetaFunction st Z st.fZ0 / Real.sqrt 2
  let r3 := shoot r2.2 0 tmp_sigy
  let Y := r3.1 + st.fY0
  let r4 := shoot r3.2 0 st.fSigmaZ
  let T := r4.1 + st.fTimeOffset
  (⟨X, Y, Z, T⟩, r4.2)

/-- A concrete beam-spot state matching the spec's reproducibility example:
`x0 = y0 = z0 = 0`, `sigmaZ = 5.3`, `betaStar = 55`, `emittance = 5.03e-8`,
`timeOffset = 0`. -/
def testState : BetafuncState :=
  { readDB_ := false
    fX0 := 0
    fY0 := 0
    fZ0 := 0
    fSigmaZ := 5.3
    fbetastar := 55
    femittance := 5.03e-8
    fTimeOffset := 0
    boost_ := 1 }

/-- An engine whose every standard-normal draw is `1`, cursor at the start. -/
def onesEngine : HepRandomEngine :=
  { draws := fun _ => 1, pos := 0 }

/-- The closed-form inverse of `boostM alpha phi` (valid when `cos phi ≠ 0`),
obtained by solving `boostM alpha phi * x = b` by Gaussian elimination; used to
certify that `boostM` is nonsingular away from `phi = ±π/2`. -/
def boostMInv (alpha phi : ℝ) : Matrix (Fin 4) (Fin 4) ℝ :=
  Matrix.of
    ![![1 / Real.cos phi, Real.cos alpha * Real.tan phi, 0, Real.sin alpha * Real.tan phi],
      ![Real.cos alpha * Real.sin phi, 1, -Real.cos alpha * Real.sin phi, 0],
      ![Real.tan phi * Real.sin phi, Real.cos alpha * Real.tan phi,
        Real.cos phi, Real.sin alpha * Real.tan phi],
      ![Real.sin alpha * Real.sin phi, 0, -Real.sin alpha * Real.sin phi, 1]]

/-- `testState` with the conditions-database path enabled (`readDB_ = true`). -/
def dbState : BetafuncState :=
  { testState with readDB_ := true }

/-- A conditions-database record flagged as a purely Gaussian beam profile. -/
def gaussBeam : SimBeamSpotObjects :=
  { isGaussian := true, x := 1, y := 2, z := 3, sigmaZ := 4, timeOffset := 5,
    betaStar := 6, emittance := 7, alpha := 0, phi := 0 }

/-- A beta-function (non-Gaussian) record carrying a negative `sigmaZ`. -/
def negSigmaBeam : SimBeamSpotObjects :=
  { isGaussian := false, x := 0, y := 0, z := 0, sigmaZ := -1, timeOffset := 0,
    betaStar := 55, emittance := 5.03e-8, alpha := 0, phi := 0 }

/-- A static configuration with `SigmaZ = 1` and otherwise valid fields. -/
def cfg1 : StaticConfig :=
  { X0 := 0, Y0 := 0, Z0 := 0, SigmaZ := 1, BetaStar := 55,
    Emittance := 5.03e-8, TimeOffset := 0, Alpha := 0, Phi := 0 }

/-! ### Helper lemmas about the boost matrix -/

set_option maxHeartbeats 1600000 in
theorem boostM_mul_boostMInv (alpha phi : ℝ) (h : Real.cos phi ≠ 0) :
    boostM alpha phi * boostMInv alpha phi = 1 := by
  have hs2 : Real.sin phi ^ 2 = 1 - Real.cos phi ^ 2 := Real.sin_sq phi
  have hs3 : Real.sin phi ^ 3 = (1 - Real.cos phi ^ 2) * Real.sin phi := by
    rw [pow_succ, hs2]
  have hs4 : Real.sin phi ^ 4 = (1 - Real.cos phi ^ 2) ^ 2 := by
    rw [show (4 : ℕ) = 2 * 2 from rfl, pow_mul, hs2]
  have ha2 : Real.sin alpha ^ 2 = 1 - Real.cos alpha ^ 2 := Real.sin_sq alpha
  ext i j
  fin_cases i <;> fin_cases j <;>
    (try simp [boostM, boostMInv, Matrix.mul_apply, Fin.sum_univ_four,
      Real.tan_eq_sin_div_cos, Matrix.one_apply])
  all_goals try field_simp
  all_goals try ring_nf
  all_goals try simp only [hs2, hs3, hs4, ha2]
  all_goals ring_nf

set_option maxHeartbeats 1600000 in
theorem boostMInv_mul_boostM (alpha phi : ℝ) (h : Real.cos phi ≠ 0) :
    boostMInv alpha phi * boostM alpha phi = 1 := by
  have hs2 : Real.sin phi ^ 2 = 1 - Real.cos phi ^ 2 := Real.sin_sq phi
  have hs3 : Real.sin phi ^ 3 = (1 - Real.cos phi ^ 2) * Real.sin phi := by
    rw [pow_succ, hs2]
  have hs4 : Real.sin phi ^ 4 = (1 - Real.cos phi ^ 2) ^ 2 := by
    rw [show (4 : ℕ) = 2 * 2 from rfl, pow_mul, hs2]
  have ha2 : Real.sin alpha ^ 2 = 1 - Real.cos alpha ^ 2 := Real.sin_sq alpha
  ext i j
  fin_cases i <;> fin_cases j <;>
    (try simp [boostM, boostMInv, Matrix.mul_apply, Fin.sum_univ_four,
      Real.tan_eq_sin_div_cos, Matrix.one_apply])
  all_goals try field_simp
  all_goals try ring_nf
  all_goals try simp only [hs2, hs3, hs4, ha2]
  all_goals ring_nf

/-- Away from `phi = ±π/2` the pre-inversion boost matrix is nonsingular. -/
theorem isUnit_det_boostM (alpha phi : ℝ) (h : Real.cos phi ≠ 0) :
    IsUnit (boostM alpha phi).det :=
  Matrix.isUnit_det_of_right_inverse (boostM_mul_boostMInv alpha phi h)

/-- With `alpha = 0` and `phi = 0` the pre-inversion boost matrix is the
identity. -/
theorem boostM_zero_zero : boostM 0 0 = 1 := by
  ext i j
  fin_cases i <;> fin_cases j <;>
    simp [boostM, Matrix.one_apply, Matrix.vecHead, Matrix.vecTail]

/-! ### Claim theorems -/

/-- Claim C1: for every parameter state and every draw stream, `vertexShift`
returns the 4-vector with `Z = sigmaZ-draw + z0`, `X` and `Y` Gaussian with the
same sigma `BetaFunction(Z, z0) / sqrt 2` shifted by `x0` resp. `y0` (no
crossing-angle slope term), and `T = sigmaZ-draw + timeOffset`; it consumes
exactly four draws; and on the concrete state
`x0 = y0 = z0 = 0, sigmaZ = 5.3, betaStar = 55, emittance = 5.03e-8,
timeOffset = 0` with unit draws it returns
`Z = T = 5.3` and `X = Y = sqrt(emittance * (betaStar + 5.3^2 / betaStar)) / sqrt 2`. -/
theorem vertexShift_spec :
    (∀ (st : BetafuncState) (e : HepRandomEngine),
      vertexShift st e =
        ({ X := BetaFunction st (st.fSigmaZ * e.draws e.pos + st.fZ0) st.fZ0 / Real.sqrt 2 *
                  e.draws (e.pos + 1) + st.fX0
           Y := BetaFunction st (st.fSigmaZ * e.draws e.pos + st.fZ0) st.fZ0 / Real.sqrt 2 *
                  e.draws (e.pos + 2) + st.fY0
           Z := st.fSigmaZ * e.draws e.pos + st.fZ0
           T := st.fSigmaZ * e.draws (e.pos + 3) + st.fTimeOffset },
         { draws := e.draws, pos := e.pos + 4 })) ∧
    (vertexShift testState onesEngine).1 =
      { X := Real.sqrt (5.03e-8 * (55 + 5.3 ^ 2 / 55)) / Real.sqrt 2
        Y := Real.sqrt (5.03e-8 * (55 + 5.3 ^ 2 / 55)) / Real.sqrt 2
        Z := 5.3
        T := 5.3 } := by
  constructor
  · intro st e
    simp [vertexShift, shoot]
  · norm_num [vertexShift, shoot, BetaFunction, testState, onesEngine]

/-- Claim C2: `BetaFunction` returns exactly
`sqrt(emittance * (betaStar + (z - z0)^2 / betaStar))` whenever
`betaStar ≠ 0`, and it depends on no model state other than
`fbetastar` and `femittance`. -/
theorem BetaFunction_spec :
    (∀ (st : BetafuncState) (z z0 : ℝ), st.fbetastar ≠ 0 →
      BetaFunction st z z0 =
        Real.sqrt (st.femittance * (st.fbetastar + (z - z0) ^ 2 / st.fbetastar))) ∧
    (∀ (st st' : BetafuncState) (z z0 : ℝ),
      st.fbetastar = st'.fbetastar → st.femittance = st'.femittance →
      BetaFunction st z z0 = BetaFunction st' z z0) := by
  constructor
  · intro st z z0 _
    rw [BetaFunction, sq]
  · intro st st' z z0 hb he
    rw [BetaFunction, BetaFunction, hb, he]

/-- Witness for claim C2 at a concrete state and point. -/
theorem BetaFunction_spec_w :
    BetaFunction testState 1 0 =
      Real.sqrt (testState.femittance *
        (testState.fbetastar + (1 - 0) ^ 2 / testState.fbetastar)) :=
  BetaFunction_spec.1 testState 1 0 (by norm_num [testState])

/-- Claim C3: `setBoost` builds the matrix whose sixteen entries are the
closed-form trigonometric expressions of the spec, and the stored
`boost_` is its (two-sided) inverse whenever that matrix is invertible. -/
theorem setBoost_spec (st : BetafuncState) (alpha phi : ℝ)
    (h : IsUnit (boostM alpha phi).det) :
    (boostM alpha phi 0 0 = 1 / Real.cos phi ∧
     boostM alpha phi 0 1 = -Real.cos alpha * Real.sin phi ∧
     boostM alpha phi 0 2 = -Real.tan phi * Real.sin phi ∧
     boostM alpha phi 0 3 = -Real.sin alpha * Real.sin phi ∧
     boostM alpha phi 1 0 = -Real.cos alpha * Real.tan phi ∧
     boostM alpha phi 1 1 = 1 ∧
     boostM alpha phi 1 2 = Real.cos alpha * Real.tan phi ∧
     boostM alpha phi 1 3 = 0 ∧
     boostM alpha phi 2 0 = 0 ∧
     boostM alpha phi 2 1 = -Real.cos alpha * Real.sin phi ∧
     boostM alpha phi 2 2 = Real.cos phi ∧
     boostM alpha phi 2 3 = -Real.sin alpha * Real.sin phi ∧
     boostM alpha phi 3 0 = -Real.sin alpha * Real.tan phi ∧
     boostM alpha phi 3 1 = 0 ∧
     boostM alpha phi 3 2 = Real.sin alpha * Real.tan phi ∧
     boostM alpha phi 3 3 = 1) ∧
    (setBoost st alpha phi).boost_ = (boostM alpha phi)⁻¹ ∧
    boostM alpha phi * (setBoost st alpha phi).boost_ = 1 ∧
    (setBoost st alpha phi).boost_ * boostM alpha phi = 1 :=
  ⟨⟨rfl, rfl, rfl, rfl, rfl, rfl, rfl, rfl, rfl, rfl, rfl, rfl, rfl, rfl, rfl, rfl⟩,
   rfl, Matrix.mul_nonsing_inv _ h, Matrix.nonsing_inv_mul _ h⟩

/-- Witness for claim C3 at `alpha = 0`, `phi = 0`. -/
theorem setBoost_spec_w :
    boostM 0 0 * (setBoost testState 0 0).boost_ = 1 :=
  (setBoost_spec testState 0 0
    (by rw [boostM_zero_zero, Matrix.det_one]; exact isUnit_one)).2.2.1

/-- Claim C4: the static-configuration path fails with
`cms::Exception("Configuration")` exactly when the supplied `SigmaZ` is
non-positive, and succeeds otherwise (in particular with `SigmaZ = 1`). -/
theorem configureStatic_spec :
    (∀ p : StaticConfig,
      configureStatic p = Except.error CmsException.configuration ↔ p.SigmaZ ≤ 0) ∧
    (∀ p : StaticConfig, ¬ p.SigmaZ ≤ 0 →
      ∃ st, configureStatic p = Except.ok st) := by
  have h10 : ∀ x : ℝ, x * (10 : ℝ) ≤ 0 ↔ x ≤ 0 := by
    intro x
    constructor <;> intro h <;> nlinarith
  constructor
  · intro p
    simp only [configureStatic, setBoost, cm]
    split_ifs with h
    · simpa using (h10 p.SigmaZ).mp h
    · simpa using fun hc => h ((h10 p.SigmaZ).mpr hc)
  · intro p hp
    have hno : ¬ (p.SigmaZ * (10 : ℝ) ≤ 0) := fun h => hp ((h10 p.SigmaZ).mp h)
    exact ⟨_, by simp [configureStatic, setBoost, cm, hno]; rfl⟩

/-- Witness for claim C4: `SigmaZ = 1` with otherwise valid fields succeeds. -/
theorem configureStatic_spec_w :
    ∃ st, configureStatic cfg1 = Except.ok st :=
  configureStatic_spec.2 cfg1 (by norm_num [cfg1])

/-- Claim C5: on the dynamic path, a record flagged as Gaussian makes `update`
throw `cms::Exception("Configuration")` and leave the whole prior state (all
beam-spot fields and the boost matrix) untouched. -/
theorem update_gaussian_spec (st : BetafuncState) (beam : SimBeamSpotObjects)
    (hdb : st.readDB_ = true) (hg : beam.isGaussian = true) :
    update st true beam = (st, some CmsException.configuration) := by
  simp [update, hdb, hg]

/-- Witness for claim C5 on a concrete state and Gaussian record. -/
theorem update_gaussian_spec_w :
    update dbState true gaussBeam = (dbState, some CmsException.configuration) :=
  update_gaussian_spec dbState gaussBeam rfl rfl

/-- Claim C6: the `sigmaZ` setter throws `cms::Exception("LogicError")` exactly
when the new value is negative, leaving the state unchanged; otherwise it
updates `fSigmaZ` alone (so setting `0` succeeds). -/
theorem sigmaZ_spec (st : BetafuncState) (v : ℝ) :
    ((sigmaZ st v).2 = some CmsException.logicError ↔ v < 0) ∧
    (v < 0 → sigmaZ st v = (st, some CmsException.logicError)) ∧
    (0 ≤ v → sigmaZ st v = ({ st with fSigmaZ := v }, none)) := by
  refine ⟨?_, ?_, ?_⟩
  · rw [sigmaZ]
    split_ifs with h
    · simpa using not_lt.mpr h
    · simpa using not_le.mp h
  · intro hv
    rw [sigmaZ, if_neg (not_le.mpr hv)]
  · intro hv
    rw [sigmaZ, if_pos hv]

/-- Witness for claim C6: setting `sigmaZ` to `0` succeeds and only changes
`fSigmaZ`. -/
theorem sigmaZ_spec_w :
    sigmaZ testState 0 = ({ testState with fSigmaZ := 0 }, none) :=
  (sigmaZ_spec testState 0).2.2 le_rfl

/-- Claim C7: for `phi` away from `±π/2` (`cos phi ≠ 0`) the pre-inversion
boost matrix is nonsingular, and inverting its inverse gives it back. -/
theorem boostM_inv_roundtrip (alpha phi : ℝ) (h : Real.cos phi ≠ 0) :
    ((boostM alpha phi)⁻¹)⁻¹ = boostM alpha phi :=
  Matrix.nonsing_inv_nonsing_inv _ (isUnit_det_boostM alpha phi h)

/-- Witness for claim C7 at `alpha = 0`, `phi = 0`. -/
theorem boostM_inv_roundtrip_w :
    ((boostM 0 0)⁻¹)⁻¹ = boostM 0 0 :=
  boostM_inv_roundtrip 0 0 (by norm_num [Real.cos_zero])

/-- Claim C8: with `alpha = 0` and `phi = 0` the constructed matrix is the
identity and the stored boost matrix (its inverse) is the identity as well. -/
theorem setBoost_identity (st : BetafuncState) :
    boostM 0 0 = 1 ∧ (setBoost st 0 0).boost_ = 1 := by
  refine ⟨boostM_zero_zero, ?_⟩
  show (boostM 0 0)⁻¹ = 1
  rw [boostM_zero_zero]
  exact Matrix.inv_eq_left_inv (by rw [one_mul])

/-- Claim C9: for `betaStar > 0` and `emittance ≥ 0` the beta-function width is
non-negative everywhere, and at the interaction point it equals
`sqrt(emittance * betaStar)`. -/
theorem BetaFunction_nonneg_ip (st : BetafuncState) (z z0 : ℝ)
    (hb : 0 < st.fbetastar) (he : 0 ≤ st.femittance) :
    0 ≤ BetaFunction st z z0 ∧
    BetaFunction st z0 z0 = Real.sqrt (st.femittance * st.fbetastar) := by
  refine ⟨Real.sqrt_nonneg _, ?_⟩
  rw [BetaFunction]
  norm_num

/-- Witness for claim C9 at the concrete test state. -/
theorem BetaFunction_nonneg_ip_w :
    BetaFunction testState 0 0 = Real.sqrt (testState.femittance * testState.fbetastar) :=
  (BetaFunction_nonneg_ip testState 1 0 (by norm_num [testState])
    (by norm_num [testState])).2

/-- Claim C10: on the dynamic path, a non-Gaussian record is accepted with no
range validation: `update` raises nothing and replaces every beam-spot field
(scaled into CLHEP units) and rebuilds the boost matrix, whatever the record's
`sigmaZ` (zero or negative included). -/
theorem update_nonGaussian_spec (st : BetafuncState) (beam : SimBeamSpotObjects)
    (hdb : st.readDB_ = true) (hg : beam.isGaussian = false) :
    (update st true beam).2 = none ∧
    (update st true beam).1.fX0 = beam.x * cm ∧
    (update st true beam).1.fY0 = beam.y * cm ∧
    (update st true beam).1.fZ0 = beam.z * cm ∧
    (update st true beam).1.fSigmaZ = beam.sigmaZ * cm ∧
    (update st true beam).1.fTimeOffset = beam.timeOffset * ns * c_light ∧
    (update st true beam).1.fbetastar = beam.betaStar * cm ∧
    (update st true beam).1.femittance = beam.emittance * cm ∧
    (update st true beam).1.boost_ =
      (boostM (beam.alpha * radian) (beam.phi * radian))⁻¹ := by
  simp [update, setBoost, hdb, hg]

/-- Witness for claim C10: a record with `sigmaZ = -1` is still accepted and
its (negative) `sigmaZ` is installed. -/
theorem update_nonGaussian_spec_w :
    (update dbState true negSigmaBeam).2 = none ∧
    (update dbState true negSigmaBeam).1.fSigmaZ = negSigmaBeam.sigmaZ * cm :=
  ⟨(update_nonGaussian_spec dbState negSigmaBeam rfl rfl).1,
   (update_nonGaussian_spec dbState negSigmaBeam rfl rfl).2.2.2.2.1⟩

end
